import Mathlib

/-!
Shallow embedding of the reconciliation core of the datamover-operator
repository (internal/controller/datamover_controller.go and
internal/controller/datamoverpopulator_controller.go).

Each reconciler invocation is modelled as a pure function.  Every value the
Go code reads from the cluster store (a `Get` result) is an explicit input,
packaged in an environment record; every external mutation the Go code
performs (`Create`, `Delete`, a status or annotation `Update`) is an
explicit field or event of the output record.  A phase write is recorded as
the value passed to `Status().Update`; at most one status update happens per
invocation of the Go code, so a single `Option String` field is faithful.
Metric-recorder calls and log statements are not external mutations of the
resource store and are not modelled.
-/

/-- Result returned by a reconciler invocation: corresponds to the Go
return values `ctrl.Result{}, nil` (done), `ctrl.Result{Requeue: true}, nil`
(requeue), `ctrl.Result{RequeueAfter: d}, nil` (requeueAfter, in seconds)
and a non-nil error (errOut). -/
inductive RecResult where
  | done
  | requeue
  | requeueAfter (seconds : Nat)
  | errOut
deriving DecidableEq, Repr

/-- Outcome of a store `Get`: the object was found, was not found
(`errors.IsNotFound`), or the call failed with some other error. -/
inductive GetRes (α : Type) where
  | found (a : α)
  | notFound
  | errOther
deriving DecidableEq, Repr

/-- Annotations / labels: Go `map[string]string`, modelled as an
association list observed only through `annGet` / `annSet` / `annDel`. -/
abbrev Annotations := List (String × String)

/-- Map lookup (`v, exists := m[k]`). -/
def annGet : Annotations → String → Option String
  | [], _ => none
  | (k', v) :: t, k => if k' = k then some v else annGet t k

/-- Map deletion (`delete(m, k)`). -/
def annDel : Annotations → String → Annotations
  | [], _ => []
  | (k', v) :: t, k => if k' = k then annDel t k else (k', v) :: annDel t k

/-- Map assignment (`m[k] = v`). -/
def annSet (a : Annotations) (k v : String) : Annotations :=
  (k, v) :: annDel a k

/-- Go pattern `v, exists := m[k]; exists && v == "true"`. -/
def annTrue (a : Annotations) (k : String) : Bool :=
  match annGet a k with
  | some v => v = "true"
  | none => false

/-- `k8s.io/api/core/v1` typed object reference (`DataSourceRef`). -/
structure TypedObjectReference where
  apiGroup : Option String
  kind : String
  name : String
deriving DecidableEq, Repr

/-- The fields of a `corev1.PersistentVolumeClaim` that the two reconcilers
read or write.  `resourcesStorage` stands for the storage quantity in
`Spec.Resources.Requests[storage]` (an opaque quantity string);
`dataSource` is the pair (Kind, Name) of `Spec.DataSource`;
`phase` is `Status.Phase` ("Pending" / "Bound"). -/
structure PVC where
  name : String
  accessModes : List String
  resourcesStorage : String
  storageClassName : Option String
  volumeMode : Option String := none
  dataSource : Option (String × String) := none
  dataSourceRef : Option TypedObjectReference := none
  volumeName : String := ""
  annotations : Annotations := []
  labels : Annotations := []
  deletionTimestamp : Option Nat := none
  phase : String := "Pending"
deriving DecidableEq, Repr

/-- The fields of a `batchv1.Job` that the reconcilers read:
`Spec.BackoffLimit`, `Status.Succeeded`, `Status.Failed`. -/
structure Job where
  name : String
  backoffLimit : Option Int
  succeeded : Int
  failed : Int
deriving DecidableEq, Repr

/-! ## DataMover lifecycle (datamover_controller.go) -/

def PhaseInitial : String := ""
def PhaseCreatingPVC : String := "CreatingClonedPVC"
def PhasePVCReady : String := "ClonedPVCReady"
def PhaseCreatingPod : String := "CreatingPod"
def PhaseCleaningUp : String := "CleaningUp"
def PhaseCompleted : String := "Completed"
def PhaseFailed : String := "Failed"

/-- Spec fields of the DataMover custom resource used by the reconciler
(api/v1alpha1/datamover_types.go).  Job-environment details
(`AddTimestampPrefix`, `AdditionalEnv`, `Image`) only shape the pod template
of the created job and are not modelled. -/
structure DataMoverSpec where
  sourcePVC : String
  secretName : String
  deletePvcAfterBackup : Bool
deriving DecidableEq, Repr

structure DataMoverStatus where
  phase : String
  restoredPVCName : String
deriving DecidableEq, Repr

structure DataMover where
  name : String
  spec : DataMoverSpec
  status : DataMoverStatus
deriving DecidableEq, Repr

/-- Store reads and store-write outcomes for one DataMover reconcile
invocation.  `sourcePVC` is the `Get` of `dm.Spec.SourcePVC`; `clonedPVC`
the `Get` of `dm.Status.RestoredPVCName`; `job` the `Get` of the
verification job; the booleans are whether the corresponding
`Create`/`Delete` call succeeds; `nowUnix` is `time.Now().Unix()`. -/
structure DMEnv where
  sourcePVC : GetRes PVC
  clonedPVC : GetRes PVC
  job : GetRes Job
  createPVCOk : Bool
  createJobOk : Bool
  deletePVCOk : Bool
  nowUnix : Int
deriving Repr

/-- External mutations and result of one DataMover reconcile invocation.
`phaseWrite` / `restoredNameWrite` are the values handed to
`Status().Update`; `createdPVC` / `createdJobName` / `deletedPVCName` the
arguments of `Create` / `Delete`. -/
structure DMStepOut where
  phaseWrite : Option String := none
  restoredNameWrite : Option String := none
  createdPVC : Option PVC := none
  createdJobName : Option String := none
  deletedPVCName : Option String := none
  res : RecResult
deriving DecidableEq, Repr

/-- `createClonedPVC` (datamover_controller.go lines 144-199). -/
def createClonedPVC (dm : DataMover) (env : DMEnv) : DMStepOut :=
  let clonedPVCName := dm.spec.sourcePVC ++ "-cloned-" ++ toString env.nowUnix
  match env.sourcePVC with
  | .found sourcePVC =>
    let pvc : PVC :=
      { name := clonedPVCName
        accessModes := sourcePVC.accessModes
        resourcesStorage := sourcePVC.resourcesStorage
        dataSource := some ("PersistentVolumeClaim", dm.spec.sourcePVC)
        storageClassName := sourcePVC.storageClassName }
    if env.createPVCOk then
      { createdPVC := some pvc
        phaseWrite := some PhaseCreatingPVC
        restoredNameWrite := some clonedPVCName
        res := .requeue }
    else
      { createdPVC := some pvc, res := .errOut }
  | _ => { res := .errOut }

/-- `waitForPVCBound` (datamover_controller.go lines 201-234). -/
def waitForPVCBound (_dm : DataMover) (env : DMEnv) : DMStepOut :=
  match env.clonedPVC with
  | .found pvc =>
    if pvc.phase = "Bound" then
      { phaseWrite := some PhasePVCReady, res := .requeue }
    else
      { res := .requeueAfter 15 }
  | _ => { res := .errOut }

/-- `createVerificationJob` (datamover_controller.go lines 236-386).  The
job object is reduced to its name; pod-template details do not feed any
control decision of the reconciler. -/
def createVerificationJob (dm : DataMover) (env : DMEnv) : DMStepOut :=
  let jobName := "verify-" ++ dm.status.restoredPVCName
  match env.job with
  | .notFound =>
    if env.createJobOk then
      { createdJobName := some jobName
        phaseWrite := some PhaseCreatingPod
        res := .requeue }
    else
      { createdJobName := some jobName, res := .errOut }
  | .errOther => { res := .errOut }
  | .found _ =>
    { phaseWrite := some PhaseCreatingPod, res := .requeue }

/-- `waitForJobCompletion` (datamover_controller.go lines 388-463).
The comparison of `job.Status.Failed` against `*job.Spec.BackoffLimit+1`
at lines 440-446 of the source only selects a log message; both of its
branches fall through to the same `PhaseFailed` status write. -/
def waitForJobCompletion (dm : DataMover) (env : DMEnv) : DMStepOut :=
  match env.job with
  | .found job =>
    if job.succeeded > 0 then
      if dm.spec.deletePvcAfterBackup then
        { phaseWrite := some PhaseCleaningUp, res := .requeue }
      else
        { phaseWrite := some PhaseCompleted, res := .requeue }
    else if job.failed > 0 then
      { phaseWrite := some PhaseFailed, res := .done }
    else
      { res := .requeueAfter 15 }
  | _ => { res := .errOut }

/-- `cleanupClonedPVC` (datamover_controller.go lines 465-533). -/
def cleanupClonedPVC (dm : DataMover) (env : DMEnv) : DMStepOut :=
  if dm.status.restoredPVCName = "" then
    { phaseWrite := some PhaseCompleted, res := .done }
  else
    match env.clonedPVC with
    | .notFound => { phaseWrite := some PhaseCompleted, res := .done }
    | .errOther => { res := .errOut }
    | .found pvc =>
      if env.deletePVCOk then
        { deletedPVCName := some pvc.name
          phaseWrite := some PhaseCompleted
          res := .done }
      else
        { deletedPVCName := some pvc.name
          phaseWrite := some PhaseFailed
          res := .done }

/-- The phase switch of `Reconcile` (datamover_controller.go lines 83-139). -/
def dataMoverStep (dm : DataMover) (env : DMEnv) : DMStepOut :=
  if dm.status.phase = PhaseInitial then createClonedPVC dm env
  else if dm.status.phase = PhaseCreatingPVC then waitForPVCBound dm env
  else if dm.status.phase = PhasePVCReady then createVerificationJob dm env
  else if dm.status.phase = PhaseCreatingPod then waitForJobCompletion dm env
  else if dm.status.phase = PhaseCleaningUp then cleanupClonedPVC dm env
  else if dm.status.phase = PhaseCompleted then { res := .done }
  else if dm.status.phase = PhaseFailed then { res := .done }
  else { res := .requeue }

/-- `Reconcile` of the DataMover controller (datamover_controller.go lines
48-140): the initial `Get` of the DataMover object, then the phase switch. -/
def dataMoverReconcile (dmRes : GetRes DataMover) (env : DMEnv) : DMStepOut :=
  match dmRes with
  | .notFound => { res := .done }
  | .errOther => { res := .errOut }
  | .found dm => dataMoverStep dm env

/-- The phase-transition table of spec section 4.1, as stated by claim C2:
source phase paired with the phases an invocation may write from it. -/
def phaseEdges : List (String × String) :=
  [(PhaseInitial, PhaseCreatingPVC),
   (PhaseCreatingPVC, PhasePVCReady),
   (PhasePVCReady, PhaseCreatingPod),
   (PhaseCreatingPod, PhaseCleaningUp),
   (PhaseCreatingPod, PhaseCompleted),
   (PhaseCreatingPod, PhaseFailed),
   (PhaseCleaningUp, PhaseCompleted),
   (PhaseCleaningUp, PhaseFailed)]

/-- C1: in the CreatingPod wait step, a job with `Failed = 1` — below the
configured budget of 3 total attempts (`BackoffLimit = 2`) and with no
success yet — already causes the reconciler to write phase `Failed`: the
code transitions on any positive failed count, the backoff-limit comparison
only selects a log message.  This contradicts the claim (and the
repository's own README retry documentation and the backoff-limit comment
in the source). -/
theorem waitForJobCompletion_fails_before_budget_exhausted :
    (dataMoverReconcile
      (GetRes.found
        { name := "dm1"
          spec := { sourcePVC := "src", secretName := "s", deletePvcAfterBackup := true }
          status := { phase := "CreatingPod", restoredPVCName := "src-cloned-100" } })
      { sourcePVC := .notFound
        clonedPVC := .notFound
        job := .found { name := "verify-src-cloned-100", backoffLimit := some 2, succeeded := 0, failed := 1 }
        createPVCOk := true
        createJobOk := true
        deletePVCOk := true
        nowUnix := 100 }).phaseWrite = some PhaseFailed := by
  rfl

/-- C2: every phase value the DataMover reconciler hands to
`Status().Update` is an edge of the section-4.1 table out of the phase the
object was observed in: no invocation writes a phase that skips a required
intermediate phase. -/
theorem dataMover_phaseWrite_follows_table (dm : DataMover) (env : DMEnv)
    (p : String)
    (h : (dataMoverReconcile (GetRes.found dm) env).phaseWrite = some p) :
    (dm.status.phase, p) ∈ phaseEdges := by
  unfold dataMoverReconcile dataMoverStep createClonedPVC waitForPVCBound
    createVerificationJob waitForJobCompletion cleanupClonedPVC at h
  repeat' split at h
  all_goals simp_all [phaseEdges, PhaseInitial, PhaseCreatingPVC, PhasePVCReady,
    PhaseCreatingPod, PhaseCleaningUp, PhaseCompleted, PhaseFailed]

/-- Witness for C2: the initial-phase step writes `CreatingClonedPVC`,
an edge of the table. -/
theorem dataMover_phaseWrite_follows_table_witness :
    (("", "CreatingClonedPVC") : String × String) ∈ phaseEdges :=
  dataMover_phaseWrite_follows_table
    { name := "dm1"
      spec := { sourcePVC := "src", secretName := "s", deletePvcAfterBackup := false }
      status := { phase := "", restoredPVCName := "" } }
    { sourcePVC := .found
        { name := "src"
          accessModes := ["ReadWriteOnce"]
          resourcesStorage := "1Gi"
          storageClassName := some "std" }
      clonedPVC := .notFound
      job := .notFound
      createPVCOk := true
      createJobOk := true
      deletePVCOk := true
      nowUnix := 42 }
    "CreatingClonedPVC" rfl

/-- C3: from the initial phase `""`, when the source claim is found the
step creates exactly one clone named `<source>-cloned-<unix-seconds>`
carrying the source's access modes, storage size and storage class as read
at creation time, with a data source referencing the source claim; it
records the clone name in status and writes phase `CreatingClonedPVC`.
When the source claim is absent the step errors out without creating
anything and without any status write. -/
theorem createClonedPVC_initial_step (dm : DataMover) (env : DMEnv)
    (hph : dm.status.phase = "") :
    (∀ src, env.sourcePVC = .found src → env.createPVCOk = true →
      ∃ c, (dataMoverReconcile (.found dm) env).createdPVC = some c ∧
        c.name = dm.spec.sourcePVC ++ "-cloned-" ++ toString env.nowUnix ∧
        c.accessModes = src.accessModes ∧
        c.resourcesStorage = src.resourcesStorage ∧
        c.storageClassName = src.storageClassName ∧
        c.dataSource = some ("PersistentVolumeClaim", dm.spec.sourcePVC) ∧
        (dataMoverReconcile (.found dm) env).restoredNameWrite = some c.name ∧
        (dataMoverReconcile (.found dm) env).phaseWrite = some PhaseCreatingPVC ∧
        (dataMoverReconcile (.found dm) env).createdJobName = none ∧
        (dataMoverReconcile (.found dm) env).deletedPVCName = none) ∧
    (env.sourcePVC = .notFound →
      (dataMoverReconcile (.found dm) env).createdPVC = none ∧
      (dataMoverReconcile (.found dm) env).phaseWrite = none ∧
      (dataMoverReconcile (.found dm) env).restoredNameWrite = none ∧
      (dataMoverReconcile (.found dm) env).res = .errOut) := by
  simp only [dataMoverReconcile]
  unfold dataMoverStep createClonedPVC
  rw [hph]
  constructor
  · intro src hsrc hok
    simp [PhaseInitial, hsrc, hok]
  · intro habs
    simp [PhaseInitial, habs]

/-- Witness for C3: a concrete initial-phase request with an existing
source claim. -/
theorem createClonedPVC_initial_step_witness :
    ∃ c, (dataMoverReconcile
      (.found
        { name := "dm1"
          spec := { sourcePVC := "data", secretName := "s", deletePvcAfterBackup := false }
          status := { phase := "", restoredPVCName := "" } })
      { sourcePVC := .found
          { name := "data"
            accessModes := ["ReadWriteOnce"]
            resourcesStorage := "2Gi"
            storageClassName := some "fast" }
        clonedPVC := .notFound
        job := .notFound
        createPVCOk := true
        createJobOk := true
        deletePVCOk := true
        nowUnix := 1700000000 }).createdPVC = some c ∧
      c.name = "data" ++ "-cloned-" ++ toString (1700000000 : Int) ∧
      c.accessModes = ["ReadWriteOnce"] ∧
      c.resourcesStorage = "2Gi" ∧
      c.storageClassName = some "fast" ∧
      c.dataSource = some ("PersistentVolumeClaim", "data") := by
  obtain ⟨c, h1, h2, h3, h4, h5, h6, -⟩ :=
    (createClonedPVC_initial_step
      { name := "dm1"
        spec := { sourcePVC := "data", secretName := "s", deletePvcAfterBackup := false }
        status := { phase := "", restoredPVCName := "" } }
      { sourcePVC := .found
          { name := "data"
            accessModes := ["ReadWriteOnce"]
            resourcesStorage := "2Gi"
            storageClassName := some "fast" }
        clonedPVC := .notFound
        job := .notFound
        createPVCOk := true
        createJobOk := true
        deletePVCOk := true
        nowUnix := 1700000000 } rfl).1 _ rfl rfl
  exact ⟨c, h1, h2, h3, h4, h5, h6⟩

/-- C4: in the CleaningUp step — with no recorded clone name the phase
becomes `Completed` and no delete is attempted; if the recorded clone is
already absent (NotFound) this is treated as success and the phase becomes
`Completed` with no delete; otherwise the clone is deleted, and the phase
becomes `Completed` on delete success and `Failed` on delete error. -/
theorem cleanupClonedPVC_cases (dm : DataMover) (env : DMEnv)
    (hph : dm.status.phase = PhaseCleaningUp) :
    (dm.status.restoredPVCName = "" →
      (dataMoverReconcile (.found dm) env).phaseWrite = some PhaseCompleted ∧
      (dataMoverReconcile (.found dm) env).deletedPVCName = none) ∧
    (dm.status.restoredPVCName ≠ "" → env.clonedPVC = .notFound →
      (dataMoverReconcile (.found dm) env).phaseWrite = some PhaseCompleted ∧
      (dataMoverReconcile (.found dm) env).deletedPVCName = none) ∧
    (∀ pvc, dm.status.restoredPVCName ≠ "" → env.clonedPVC = .found pvc →
      (dataMoverReconcile (.found dm) env).deletedPVCName = some pvc.name ∧
      (env.deletePVCOk = true →
        (dataMoverReconcile (.found dm) env).phaseWrite = some PhaseCompleted) ∧
      (env.deletePVCOk = false →
        (dataMoverReconcile (.found dm) env).phaseWrite = some PhaseFailed)) := by
  simp only [dataMoverReconcile]
  unfold dataMoverStep cleanupClonedPVC
  rw [hph]
  refine ⟨fun hempty => ?_, fun hne habs => ?_, fun pvc hne hfound => ?_⟩
  · simp [PhaseInitial, PhaseCreatingPVC, PhasePVCReady, PhaseCreatingPod,
      PhaseCleaningUp, hempty]
  · simp [PhaseInitial, PhaseCreatingPVC, PhasePVCReady, PhaseCreatingPod,
      PhaseCleaningUp, hne, habs]
  · cases hdel : env.deletePVCOk <;>
      refine ⟨?_, fun hok => ?_, fun hko => ?_⟩ <;>
        simp_all [PhaseInitial, PhaseCreatingPVC, PhasePVCReady, PhaseCreatingPod,
          PhaseCleaningUp, hne, hfound]

/-- Witness for C4: concrete CleaningUp object whose clone is already
absent — treated as success. -/
theorem cleanupClonedPVC_cases_witness :
    (dataMoverReconcile
      (.found
        { name := "dm1"
          spec := { sourcePVC := "src", secretName := "s", deletePvcAfterBackup := true }
          status := { phase := "CleaningUp", restoredPVCName := "src-cloned-7" } })
      { sourcePVC := .notFound
        clonedPVC := .notFound
        job := .notFound
        createPVCOk := true
        createJobOk := true
        deletePVCOk := true
        nowUnix := 7 }).phaseWrite = some PhaseCompleted :=
  ((cleanupClonedPVC_cases
      { name := "dm1"
        spec := { sourcePVC := "src", secretName := "s", deletePvcAfterBackup := true }
        status := { phase := "CleaningUp", restoredPVCName := "src-cloned-7" } }
      { sourcePVC := .notFound
        clonedPVC := .notFound
        job := .notFound
        createPVCOk := true
        createJobOk := true
        deletePVCOk := true
        nowUnix := 7 } rfl).2.1 (by decide) rfl).1

/-- C9: once the phase is `Completed` or `Failed`, an invocation performs
no external mutation at all — no status write, no clone or job creation,
no deletion — and returns done without requeueing. -/
theorem terminal_phase_no_action (dm : DataMover) (env : DMEnv)
    (h : dm.status.phase = PhaseCompleted ∨ dm.status.phase = PhaseFailed) :
    (dataMoverReconcile (.found dm) env).phaseWrite = none ∧
    (dataMoverReconcile (.found dm) env).restoredNameWrite = none ∧
    (dataMoverReconcile (.found dm) env).createdPVC = none ∧
    (dataMoverReconcile (.found dm) env).createdJobName = none ∧
    (dataMoverReconcile (.found dm) env).deletedPVCName = none ∧
    (dataMoverReconcile (.found dm) env).res = .done := by
  simp only [dataMoverReconcile]
  unfold dataMoverStep
  rcases h with h | h <;>
    simp [h, PhaseInitial, PhaseCreatingPVC, PhasePVCReady, PhaseCreatingPod,
      PhaseCleaningUp, PhaseCompleted, PhaseFailed]

/-- Witness for C9: a concrete Completed object. -/
theorem terminal_phase_no_action_witness :
    (dataMoverReconcile
      (.found
        { name := "dm1"
          spec := { sourcePVC := "src", secretName := "s", deletePvcAfterBackup := false }
          status := { phase := "Completed", restoredPVCName := "src-cloned-9" } })
      { sourcePVC := .notFound
        clonedPVC := .notFound
        job := .notFound
        createPVCOk := false
        createJobOk := false
        deletePVCOk := false
        nowUnix := 9 }).res = RecResult.done :=
  (terminal_phase_no_action
    { name := "dm1"
      spec := { sourcePVC := "src", secretName := "s", deletePvcAfterBackup := false }
      status := { phase := "Completed", restoredPVCName := "src-cloned-9" } }
    { sourcePVC := .notFound
      clonedPVC := .notFound
      job := .notFound
      createPVCOk := false
      createJobOk := false
      deletePVCOk := false
      nowUnix := 9 } (Or.inl rfl)).2.2.2.2.2

/-! ## Volume population (datamoverpopulator_controller.go) -/

def populatedKey : String := "datamover.a-cup-of.coffee/populated"
def populatingKey : String := "datamover.a-cup-of.coffee/populating"
def cleanupKey : String := "datamover.a-cup-of.coffee/cleanup-in-progress"

def primePVCNameOf (pvcName : String) : String := pvcName ++ "-prime"

def populationJobNameOf (primePVCName : String) : String :=
  "datamover-populator-" ++ primePVCName

/-- Spec fields of the DataMoverPopulator custom resource used by the
reconciler (api/v1alpha1/datamoverpopulator_types.go). -/
structure Populator where
  name : String
  secretName : String
  path : String
deriving DecidableEq, Repr

/-- External mutations of the population reconciler on its modelled paths:
arguments of `Create` (the prime claim / the population job) and `Delete`
(a failed population job). -/
inductive PopEvent where
  | createPVC (p : PVC)
  | createJob (name : String)
  | deleteJob (name : String)
deriving DecidableEq, Repr

/-- Result of one population-reconciler invocation.  `finalize` marks the
two places where control passes into `finalizePopulation` (the volume
hand-off), whose conflict-retry loops are modelled separately below. -/
inductive PopRes where
  | done
  | requeueAfterSec (n : Nat)
  | errOut
  | finalize (primePVCName : String)
deriving DecidableEq, Repr

structure PopOut where
  events : List PopEvent := []
  res : PopRes
deriving DecidableEq, Repr

/-- Store reads and store-write outcomes for one population reconcile:
`populator` is the `Get` of the referenced DataMoverPopulator; `primePVC`
the `Get` of `<target>-prime`; `job` the `Get` of the population job;
`secretOk` whether the credentials-secret `Get` inside
`createPopulationJob` succeeds; the booleans whether the corresponding
`Create`/`Delete` succeeds. -/
structure PopEnv where
  populator : GetRes Populator
  primePVC : GetRes PVC
  job : GetRes Job
  secretOk : Bool
  createPrimeOk : Bool
  createJobOk : Bool
  deleteJobOk : Bool
deriving Repr

/-- The prime claim built at datamoverpopulator_controller.go lines
199-215: `<target>-prime`, the target's access modes, resources, storage
class and volume mode, and — importantly — no data source reference. -/
def mkPrimePVC (pvc : PVC) (pop : Populator) : PVC :=
  { name := primePVCNameOf pvc.name
    labels := [("datamover.a-cup-of.coffee/prime-for", pvc.name),
               ("datamover.a-cup-of.coffee/populator", pop.name)]
    accessModes := pvc.accessModes
    resourcesStorage := pvc.resourcesStorage
    storageClassName := pvc.storageClassName
    volumeMode := pvc.volumeMode
    dataSource := none
    dataSourceRef := none }

/-- The population-job section of `ensurePopulationJob`
(datamoverpopulator_controller.go lines 233-279), reached once the prime
claim exists and is bound. -/
def handlePopulationJob (prime : PVC) (env : PopEnv) : PopOut :=
  let jobName := populationJobNameOf prime.name
  match env.job with
  | .found j =>
    if j.succeeded > 0 then { res := .finalize prime.name }
    else if j.failed > 0 then
      if env.deleteJobOk then
        { events := [.deleteJob jobName], res := .requeueAfterSec 120 }
      else
        { events := [.deleteJob jobName], res := .errOut }
    else { res := .requeueAfterSec 60 }
  | .errOther => { res := .errOut }
  | .notFound =>
    if env.secretOk then
      if env.createJobOk then
        { events := [.createJob jobName], res := .requeueAfterSec 60 }
      else
        { events := [.createJob jobName], res := .errOut }
    else { res := .errOut }

/-- `ensurePopulationJob` (datamoverpopulator_controller.go lines
132-280).  The `populating` check at lines 158-161 only logs.  Inside the
prime-not-found branch the source re-checks the cleanup annotation (lines
187-190) although the earlier check at line 143 already diverted that
case; the re-check is kept. -/
def ensurePopulationJob (pvc : PVC) (pop : Populator) (env : PopEnv) : PopOut :=
  if annTrue pvc.annotations populatedKey then { res := .done }
  else if annTrue pvc.annotations cleanupKey then
    match env.primePVC with
    | .found prime => { res := .finalize prime.name }
    | _ => { res := .requeueAfterSec 3 }
  else
    match env.primePVC with
    | .found prime =>
      if prime.deletionTimestamp ≠ none then { res := .requeueAfterSec 5 }
      else if prime.phase ≠ "Bound" then { res := .requeueAfterSec 10 }
      else handlePopulationJob prime env
    | .errOther => { res := .errOut }
    | .notFound =>
      if annTrue pvc.annotations cleanupKey then { res := .requeueAfterSec 3 }
      else if annTrue pvc.annotations populatingKey then { res := .requeueAfterSec 5 }
      else
        let prime := mkPrimePVC pvc pop
        if env.createPrimeOk then
          { events := [.createPVC prime], res := .requeueAfterSec 10 }
        else
          { events := [.createPVC prime], res := .errOut }

/-- Go test at datamoverpopulator_controller.go lines 68-74: the claim is
handled only when its data-source reference names a DataMoverPopulator in
the operator's API group. -/
def isDataMoverPopulatorRef (pvc : PVC) : Bool :=
  match pvc.dataSourceRef with
  | none => false
  | some r => r.apiGroup = some "datamover.a-cup-of.coffee" && r.kind = "DataMoverPopulator"

/-- `Reconcile` of the populator controller (datamoverpopulator_controller.go
lines 53-130). -/
def popReconcile (pvcRes : GetRes PVC) (env : PopEnv) : PopOut :=
  match pvcRes with
  | .notFound => { res := .done }
  | .errOther => { res := .errOut }
  | .found pvc =>
    if ¬ isDataMoverPopulatorRef pvc then { res := .done }
    else
      match env.populator with
      | .notFound =>
        if pvc.phase = "Bound" then { res := .done }
        else if annTrue pvc.annotations populatedKey then { res := .done }
        else { res := .requeueAfterSec 10 }
      | .errOther => { res := .errOut }
      | .found pop =>
        if annTrue pvc.annotations populatedKey then
          match env.primePVC with
          | .notFound => { res := .done }
          | .errOther => { res := .errOut }
          | .found _ => ensurePopulationJob pvc pop env
        else ensurePopulationJob pvc pop env

/-- C10: a claim whose data-source reference is nil, or whose API group is
not "datamover.a-cup-of.coffee", or whose kind is not "DataMoverPopulator",
is ignored: the population reconciler performs no external mutation and
returns done with no retry requested. -/
theorem foreign_pvc_ignored (pvc : PVC) (env : PopEnv)
    (h : pvc.dataSourceRef = none ∨
      ∃ r, pvc.dataSourceRef = some r ∧
        (r.apiGroup ≠ some "datamover.a-cup-of.coffee" ∨ r.kind ≠ "DataMoverPopulator")) :
    (popReconcile (.found pvc) env).events = [] ∧
    (popReconcile (.found pvc) env).res = PopRes.done := by
  have href : isDataMoverPopulatorRef pvc = false := by
    rcases h with h | ⟨r, hr, h⟩
    · simp [isDataMoverPopulatorRef, h]
    · rcases h with h | h <;> simp [isDataMoverPopulatorRef, hr, h]
  simp [popReconcile, href]

/-- Witness for C10: a claim with no data-source reference at all. -/
theorem foreign_pvc_ignored_witness :
    (popReconcile
      (.found
        { name := "plain"
          accessModes := ["ReadWriteOnce"]
          resourcesStorage := "1Gi"
          storageClassName := none })
      { populator := .notFound
        primePVC := .notFound
        job := .notFound
        secretOk := true
        createPrimeOk := true
        createJobOk := true
        deleteJobOk := true }).res = PopRes.done :=
  (foreign_pvc_ignored
    { name := "plain"
      accessModes := ["ReadWriteOnce"]
      resourcesStorage := "1Gi"
      storageClassName := none }
    { populator := .notFound
      primePVC := .notFound
      job := .notFound
      secretOk := true
      createPrimeOk := true
      createJobOk := true
      deleteJobOk := true } (Or.inl rfl)).2

/-- C7: converged states are quiescent.  A target claim annotated
`populated=true` whose prime claim is absent makes the population
reconciler return done with no external mutation (whether or not the
populator object still exists — only a transient store error on the
populator `Get` is excluded); and a DataMover in a terminal phase makes
its reconciler return done with no external mutation. -/
theorem converged_reconcile_no_mutation (pvc : PVC) (env : PopEnv)
    (dm : DataMover) (denv : DMEnv)
    (hpop : annTrue pvc.annotations populatedKey = true)
    (hprime : env.primePVC = .notFound)
    (hnotErr : env.populator ≠ .errOther)
    (hterm : dm.status.phase = PhaseCompleted ∨ dm.status.phase = PhaseFailed) :
    (popReconcile (.found pvc) env).events = [] ∧
    (popReconcile (.found pvc) env).res = PopRes.done ∧
    (dataMoverReconcile (.found dm) denv).phaseWrite = none ∧
    (dataMoverReconcile (.found dm) denv).createdPVC = none ∧
    (dataMoverReconcile (.found dm) denv).createdJobName = none ∧
    (dataMoverReconcile (.found dm) denv).deletedPVCName = none ∧
    (dataMoverReconcile (.found dm) denv).res = RecResult.done := by
  have hdm : (dataMoverReconcile (.found dm) denv).phaseWrite = none ∧
      (dataMoverReconcile (.found dm) denv).createdPVC = none ∧
      (dataMoverReconcile (.found dm) denv).createdJobName = none ∧
      (dataMoverReconcile (.found dm) denv).deletedPVCName = none ∧
      (dataMoverReconcile (.found dm) denv).res = RecResult.done := by
    simp only [dataMoverReconcile]
    unfold dataMoverStep
    rcases hterm with h | h <;>
      simp [h, PhaseInitial, PhaseCreatingPVC, PhasePVCReady, PhaseCreatingPod,
        PhaseCleaningUp, PhaseCompleted, PhaseFailed]
  have hpp : (popReconcile (.found pvc) env).events = [] ∧
      (popReconcile (.found pvc) env).res = PopRes.done := by
    unfold popReconcile
    rcases hps : env.populator with pop | _ | _
    · simp [hpop, hprime]
    · by_cases hbound : pvc.phase = "Bound" <;> simp [hbound, hpop]
    · exact absurd hps hnotErr
  exact ⟨hpp.1, hpp.2, hdm⟩

/-- Witness for C7: an already-populated claim with no prime claim, and a
Completed DataMover. -/
theorem converged_reconcile_no_mutation_witness :
    (popReconcile
      (.found
        { name := "tgt"
          accessModes := ["ReadWriteOnce"]
          resourcesStorage := "1Gi"
          storageClassName := none
          dataSourceRef := some
            { apiGroup := some "datamover.a-cup-of.coffee"
              kind := "DataMoverPopulator"
              name := "pop1" }
          annotations := [("datamover.a-cup-of.coffee/populated", "true")]
          phase := "Bound" })
      { populator := .found { name := "pop1", secretName := "s", path := "s3://b/p/" }
        primePVC := .notFound
        job := .notFound
        secretOk := true
        createPrimeOk := true
        createJobOk := true
        deleteJobOk := true }).res = PopRes.done :=
  (converged_reconcile_no_mutation
    { name := "tgt"
      accessModes := ["ReadWriteOnce"]
      resourcesStorage := "1Gi"
      storageClassName := none
      dataSourceRef := some
        { apiGroup := some "datamover.a-cup-of.coffee"
          kind := "DataMoverPopulator"
          name := "pop1" }
      annotations := [("datamover.a-cup-of.coffee/populated", "true")]
      phase := "Bound" }
    { populator := .found { name := "pop1", secretName := "s", path := "s3://b/p/" }
      primePVC := .notFound
      job := .notFound
      secretOk := true
      createPrimeOk := true
      createJobOk := true
      deleteJobOk := true }
    { name := "dm1"
      spec := { sourcePVC := "src", secretName := "s", deletePvcAfterBackup := false }
      status := { phase := "Failed", restoredPVCName := "" } }
    { sourcePVC := .notFound
      clonedPVC := .notFound
      job := .notFound
      createPVCOk := true
      createJobOk := true
      deletePVCOk := true
      nowUnix := 0 }
    (by decide) rfl (by decide) (Or.inr rfl)).2.1

/-- C8: whenever the population state machine creates a prime claim, the
created claim is named `<target>-prime`, carries the target's access
modes, resource requests, storage class and volume mode, and has no data
source reference; and the creation happens only when the prime claim was
not found and the target carries neither `populating=true` nor
`cleanup-in-progress=true`. -/
theorem prime_pvc_creation_spec (pvc : PVC) (env : PopEnv) (p : PVC)
    (h : PopEvent.createPVC p ∈ (popReconcile (.found pvc) env).events) :
    p.name = pvc.name ++ "-prime" ∧
    p.accessModes = pvc.accessModes ∧
    p.resourcesStorage = pvc.resourcesStorage ∧
    p.storageClassName = pvc.storageClassName ∧
    p.volumeMode = pvc.volumeMode ∧
    p.dataSourceRef = none ∧
    p.dataSource = none ∧
    env.primePVC = .notFound ∧
    annTrue pvc.annotations populatingKey = false ∧
    annTrue pvc.annotations cleanupKey = false := by
  unfold popReconcile ensurePopulationJob handlePopulationJob at h
  repeat' split at h
  all_goals
    simp_all [mkPrimePVC, primePVCNameOf]

/-- Witness for C8: a concrete unannotated pending target claim with no
prime claim; the reconciler creates the prime claim. -/
theorem prime_pvc_creation_spec_witness :
    ∃ p, PopEvent.createPVC p ∈ (popReconcile
      (.found
        { name := "tgt"
          accessModes := ["ReadWriteOnce"]
          resourcesStorage := "1Gi"
          storageClassName := some "std"
          volumeMode := some "Filesystem"
          dataSourceRef := some
            { apiGroup := some "datamover.a-cup-of.coffee"
              kind := "DataMoverPopulator"
              name := "pop1" } })
      { populator := .found { name := "pop1", secretName := "s", path := "s3://b/p/" }
        primePVC := .notFound
        job := .notFound
        secretOk := true
        createPrimeOk := true
        createJobOk := true
        deleteJobOk := true }).events ∧
      p.name = "tgt" ++ "-prime" ∧ p.dataSourceRef = none := by
  have h := prime_pvc_creation_spec
    { name := "tgt"
      accessModes := ["ReadWriteOnce"]
      resourcesStorage := "1Gi"
      storageClassName := some "std"
      volumeMode := some "Filesystem"
      dataSourceRef := some
        { apiGroup := some "datamover.a-cup-of.coffee"
          kind := "DataMoverPopulator"
          name := "pop1" } }
    { populator := .found { name := "pop1", secretName := "s", path := "s3://b/p/" }
      primePVC := .notFound
      job := .notFound
      secretOk := true
      createPrimeOk := true
      createJobOk := true
      deleteJobOk := true }
    (mkPrimePVC
      { name := "tgt"
        accessModes := ["ReadWriteOnce"]
        resourcesStorage := "1Gi"
        storageClassName := some "std"
        volumeMode := some "Filesystem"
        dataSourceRef := some
          { apiGroup := some "datamover.a-cup-of.coffee"
            kind := "DataMoverPopulator"
            name := "pop1" } }
      { name := "pop1", secretName := "s", path := "s3://b/p/" })
    (by decide)
  exact ⟨_, by decide, h.1, h.2.2.2.2.2.1⟩

/-! ## Volume hand-off conflict-retry loops (finalizePopulation) -/

/-- Outcome of a single optimistic `Update` attempt: success, a version
conflict (`errors.IsConflict`), or another error. -/
inductive UpdRes where
  | ok
  | conflict
  | otherErr
deriving DecidableEq, Repr

/-- How a retry loop ended early: the per-attempt re-`Get` failed, the
final attempt hit a conflict, or an update failed with another error. -/
inductive LoopErr where
  | getFailed
  | conflict
  | other
deriving DecidableEq, Repr

/-- `maxRetries` / `maxPVCRetries` in `finalizePopulation`
(datamoverpopulator_controller.go lines 427 and 455). -/
def handoffMaxRetries : Nat := 3

/-- Observable behaviour of a bounded conflict-retry loop: how many
`Update` calls were issued, the sleeps (in milliseconds) taken between
attempts, and how it ended (`none` = the loop finished successfully or
fell through). -/
structure PVLoopOut where
  updateAttempts : Nat
  sleepsMs : List Nat
  errorKind : Option LoopErr
deriving DecidableEq, Repr

/-- The claim-reference clearing loop of `finalizePopulation`
(datamoverpopulator_controller.go lines 427-452): per iteration `i`,
re-`Get` the volume (`get i`, false = error), clear `Spec.ClaimRef`,
`Update` (`upd i`); on a conflict with `i < maxRetries-1` sleep
`100ms * (i+1)` and continue, on any other failure return the error, on
success break.  `fuel = handoffMaxRetries - i` makes the recursion
structural. -/
def clearClaimRefLoop (get : Nat → Bool) (upd : Nat → UpdRes) :
    Nat → Nat → Nat → List Nat → PVLoopOut
  | 0, _, attempts, sleeps =>
    { updateAttempts := attempts, sleepsMs := sleeps.reverse, errorKind := none }
  | fuel + 1, i, attempts, sleeps =>
    if get i then
      match upd i with
      | .ok =>
        { updateAttempts := attempts + 1, sleepsMs := sleeps.reverse, errorKind := none }
      | .conflict =>
        if i < handoffMaxRetries - 1 then
          clearClaimRefLoop get upd fuel (i + 1) (attempts + 1) (100 * (i + 1) :: sleeps)
        else
          { updateAttempts := attempts + 1, sleepsMs := sleeps.reverse,
            errorKind := some .conflict }
      | .otherErr =>
        { updateAttempts := attempts + 1, sleepsMs := sleeps.reverse,
          errorKind := some .other }
    else
      { updateAttempts := attempts, sleepsMs := sleeps.reverse,
        errorKind := some .getFailed }

/-- Entry point of the claim-reference clearing loop (`i = 0`). -/
def clearClaimRefRetry (get : Nat → Bool) (upd : Nat → UpdRes) : PVLoopOut :=
  clearClaimRefLoop get upd handoffMaxRetries 0 0 []

/-- The annotation mutation of the final target-claim update
(datamoverpopulator_controller.go lines 469-472): set `populated=true`,
then delete the `populating` and `cleanup-in-progress` annotations. -/
def finalAnnotationUpdate (anns : Annotations) : Annotations :=
  annDel (annDel (annSet anns populatedKey "true") populatingKey) cleanupKey

/-- Like `PVLoopOut`, plus the annotation map a successful final update
wrote to the target claim. -/
structure FinalLoopOut where
  updateAttempts : Nat
  sleepsMs : List Nat
  written : Option Annotations
  errorKind : Option LoopErr
deriving DecidableEq, Repr

/-- The final target-claim update loop of `finalizePopulation`
(datamoverpopulator_controller.go lines 454-487): per iteration `i`
re-`Get` the target claim (`get i` returns its annotations, `none` =
error), apply `finalAnnotationUpdate`, `Update`; conflicts are retried as
in `clearClaimRefLoop`. -/
def finalPVCUpdateLoop (get : Nat → Option Annotations) (upd : Nat → UpdRes) :
    Nat → Nat → Nat → List Nat → FinalLoopOut
  | 0, _, attempts, sleeps =>
    { updateAttempts := attempts, sleepsMs := sleeps.reverse,
      written := none, errorKind := none }
  | fuel + 1, i, attempts, sleeps =>
    match get i with
    | none =>
      { updateAttempts := attempts, sleepsMs := sleeps.reverse,
        written := none, errorKind := some .getFailed }
    | some anns =>
      match upd i with
      | .ok =>
        { updateAttempts := attempts + 1, sleepsMs := sleeps.reverse,
          written := some (finalAnnotationUpdate anns), errorKind := none }
      | .conflict =>
        if i < handoffMaxRetries - 1 then
          finalPVCUpdateLoop get upd fuel (i + 1) (attempts + 1) (100 * (i + 1) :: sleeps)
        else
          { updateAttempts := attempts + 1, sleepsMs := sleeps.reverse,
            written := none, errorKind := some .conflict }
      | .otherErr =>
        { updateAttempts := attempts + 1, sleepsMs := sleeps.reverse,
          written := none, errorKind := some .other }

/-- Entry point of the final target-claim update loop (`i = 0`). -/
def finalPVCUpdateRetry (get : Nat → Option Annotations) (upd : Nat → UpdRes) :
    FinalLoopOut :=
  finalPVCUpdateLoop get upd handoffMaxRetries 0 0 []

/-- C5: under sustained version conflicts (every re-`Get` succeeds, every
`Update` conflicts) the claim-reference clearing loop makes exactly 3
update attempts, sleeps 100ms then 200ms between them (linear backoff
100ms x attempt number), and after the third conflicting attempt returns
the conflict error; the final target-claim update loop behaves the same. -/
theorem handoff_retry_loops_three_attempts
    (get1 : Nat → Bool) (upd1 : Nat → UpdRes)
    (get2 : Nat → Option Annotations) (upd2 : Nat → UpdRes)
    (hget1 : ∀ i, get1 i = true) (hupd1 : ∀ i, upd1 i = .conflict)
    (hget2 : ∀ i, (get2 i).isSome = true) (hupd2 : ∀ i, upd2 i = .conflict) :
    clearClaimRefRetry get1 upd1 =
      { updateAttempts := 3, sleepsMs := [100, 200], errorKind := some .conflict } ∧
    (finalPVCUpdateRetry get2 upd2).updateAttempts = 3 ∧
    (finalPVCUpdateRetry get2 upd2).sleepsMs = [100, 200] ∧
    (finalPVCUpdateRetry get2 upd2).written = none ∧
    (finalPVCUpdateRetry get2 upd2).errorKind = some .conflict := by
  have h1 : clearClaimRefRetry get1 upd1 =
      { updateAttempts := 3, sleepsMs := [100, 200], errorKind := some .conflict } := by
    unfold clearClaimRefRetry
    simp [clearClaimRefLoop, handoffMaxRetries, hget1, hupd1]
  obtain ⟨a0, h0⟩ := Option.isSome_iff_exists.mp (hget2 0)
  obtain ⟨a1, h1'⟩ := Option.isSome_iff_exists.mp (hget2 1)
  obtain ⟨a2, h2'⟩ := Option.isSome_iff_exists.mp (hget2 2)
  have h2 : finalPVCUpdateRetry get2 upd2 =
      { updateAttempts := 3, sleepsMs := [100, 200],
        written := none, errorKind := some .conflict } := by
    unfold finalPVCUpdateRetry
    simp [finalPVCUpdateLoop, handoffMaxRetries, h0, h1', h2', hupd2]
  exact ⟨h1, by rw [h2], by rw [h2], by rw [h2], by rw [h2]⟩

/-- Witness for C5: constant conflicting oracles. -/
theorem handoff_retry_loops_three_attempts_witness :
    clearClaimRefRetry (fun _ => true) (fun _ => UpdRes.conflict) =
      { updateAttempts := 3, sleepsMs := [100, 200],
        errorKind := some LoopErr.conflict } ∧
    (finalPVCUpdateRetry (fun _ => some []) (fun _ => UpdRes.conflict)).updateAttempts = 3 :=
  ⟨(handoff_retry_loops_three_attempts (fun _ => true) (fun _ => UpdRes.conflict)
      (fun _ => some []) (fun _ => UpdRes.conflict)
      (fun _ => rfl) (fun _ => rfl) (fun _ => rfl) (fun _ => rfl)).1,
   (handoff_retry_loops_three_attempts (fun _ => true) (fun _ => UpdRes.conflict)
      (fun _ => some []) (fun _ => UpdRes.conflict)
      (fun _ => rfl) (fun _ => rfl) (fun _ => rfl) (fun _ => rfl)).2.1⟩

theorem annGet_annDel_self (a : Annotations) (k : String) :
    annGet (annDel a k) k = none := by
  induction a with
  | nil => rfl
  | cons h t ih =>
    obtain ⟨k', v⟩ := h
    by_cases hk : k' = k <;> simp [annDel, annGet, hk, ih]

theorem annGet_annDel_ne (a : Annotations) (k k' : String) (h : k' ≠ k) :
    annGet (annDel a k') k = annGet a k := by
  induction a with
  | nil => rfl
  | cons hd t ih =>
    obtain ⟨k0, v⟩ := hd
    by_cases hk : k0 = k'
    · subst hk
      simp [annDel, annGet, h, ih]
    · by_cases hk2 : k0 = k <;> simp [annDel, annGet, hk, hk2, ih, Ne.symm h]

theorem annGet_annSet_self (a : Annotations) (k v : String) :
    annGet (annSet a k v) k = some v := by
  simp [annSet, annGet]

/-- The value a successful final target-claim update writes is always the
`finalAnnotationUpdate` of some fetched annotation map. -/
theorem finalPVCUpdateLoop_written_shape
    (get : Nat → Option Annotations) (upd : Nat → UpdRes) :
    ∀ fuel i attempts sleeps a,
      (finalPVCUpdateLoop get upd fuel i attempts sleeps).written = some a →
      ∃ anns, a = finalAnnotationUpdate anns := by
  intro fuel
  induction fuel with
  | zero =>
    intro i attempts sleeps a h
    simp [finalPVCUpdateLoop] at h
  | succ n ih =>
    intro i attempts sleeps a h
    unfold finalPVCUpdateLoop at h
    repeat' split at h
    · simp at h
    · exact ⟨_, (Option.some.injEq _ _ ▸ h.symm : _)⟩
    · exact ih _ _ _ _ h
    · simp at h
    · simp at h

/-- C6: `populated=true` is the last annotation state written to the
target claim — the final update that sets it also removes the
`populating` and `cleanup-in-progress` annotations, so any annotation map
written by a successful final update carries `populated=true` and neither
of the other two keys. -/
theorem final_annotation_update_populated_last
    (get : Nat → Option Annotations) (upd : Nat → UpdRes) (a : Annotations)
    (h : (finalPVCUpdateRetry get upd).written = some a) :
    annGet a populatedKey = some "true" ∧
    annGet a populatingKey = none ∧
    annGet a cleanupKey = none := by
  obtain ⟨anns, rfl⟩ := finalPVCUpdateLoop_written_shape get upd _ _ _ _ _ h
  unfold finalAnnotationUpdate
  refine ⟨?_, ?_, ?_⟩
  · rw [annGet_annDel_ne _ _ _ (by decide), annGet_annDel_ne _ _ _ (by decide),
      annGet_annSet_self]
  · rw [annGet_annDel_ne _ _ _ (by decide), annGet_annDel_self]
  · rw [annGet_annDel_self]

/-- Witness for C6: a concrete final update over a claim that still
carries both transient annotations. -/
theorem final_annotation_update_populated_last_witness :
    annGet (finalAnnotationUpdate [(populatingKey, "true"), (cleanupKey, "true")])
      populatedKey = some "true" ∧
    annGet (finalAnnotationUpdate [(populatingKey, "true"), (cleanupKey, "true")])
      populatingKey = none ∧
    annGet (finalAnnotationUpdate [(populatingKey, "true"), (cleanupKey, "true")])
      cleanupKey = none :=
  final_annotation_update_populated_last
    (fun _ => some [(populatingKey, "true"), (cleanupKey, "true")])
    (fun _ => UpdRes.ok) _ rfl
